import Mathlib

/-!
Verification of the gb23 emulator core (SM83 CPU, MBC1 cartridge mapper,
PPU scanline machine, bus views).

The Rust sources are embedded shallowly:
* `u8`/`u16` values are `Nat`s; wrapping arithmetic is explicit `% 256` /
  `% 65536` at the places the source has a wrapping operation or an `as u8`
  / `as u16` cast;
* byte arrays (`[u8; N]`, `Vec<u8>`) are functions `Nat → Nat`;
* `unreachable!()` / `todo!()` panics are modelled by `Option`, with `none`
  for the panic;
* every definition mirrors one Rust function of the same name.
-/

set_option maxRecDepth 100000

/-- A byte memory: addresses to byte values (models a flat `Bus`). -/
abbrev Mem := Nat → Nat

/-- Point update of a memory (models `bus.write`). -/
def Mem.set (m : Mem) (a v : Nat) : Mem :=
  fun x => if x = a then v else m x

/-- Model of `Cpu` (src/emu/cpu.rs): registers are stored as little-endian byte
pairs, exactly as the `[u8; 2]` fields of the source; `af0` is `af[0]`
(the flags byte F), `af1` is `af[1]` (the accumulator A), and so on. -/
structure Cpu where
  pc : Nat
  sp : Nat
  af0 : Nat
  af1 : Nat
  bc0 : Nat
  bc1 : Nat
  de0 : Nat
  de1 : Nat
  hl0 : Nat
  hl1 : Nat
  irq : Bool
  ime : Bool
  stopped : Bool
  halted : Bool

/-- Model of `Cpu::new` / `Cpu::default`: all registers zero, all latches false. -/
def Cpu.new : Cpu :=
  ⟨0, 0, 0, 0, 0, 0, 0, 0, 0, 0, false, false, false, false⟩

inductive Register where
  | A | F | B | C | D | E | H | L

inductive WideRegister where
  | PC | SP | AF | BC | DE | HL

inductive CpuFlag where
  | Zero | Negative | HalfCarry | Carry

/-- The discriminant values of the `Flag` enum. -/
def CpuFlag.mask : CpuFlag → Nat
  | .Zero => 0x80
  | .Negative => 0x40
  | .HalfCarry => 0x20
  | .Carry => 0x10

/-- Model of `Cpu::flag`: `(self.af[0] & (flag as u8)) != 0`. -/
def Cpu.flag (c : Cpu) (f : CpuFlag) : Bool :=
  (c.af0 &&& f.mask) != 0

/-- Model of `Cpu::set_flag`: set or clear a flag bit in F (`!mask` on `u8` is
`255 ^^^ mask`). -/
def Cpu.setFlag (c : Cpu) (f : CpuFlag) (value : Bool) : Cpu :=
  if value then
    { c with af0 := c.af0 ||| f.mask }
  else
    { c with af0 := c.af0 &&& (255 ^^^ f.mask) }

/-- Model of `Cpu::register`. -/
def Cpu.register (c : Cpu) : Register → Nat
  | .A => c.af1
  | .F => c.af0
  | .B => c.bc1
  | .C => c.bc0
  | .D => c.de1
  | .E => c.de0
  | .H => c.hl1
  | .L => c.hl0

/-- Model of `Cpu::set_register`. -/
def Cpu.setRegister (c : Cpu) (r : Register) (v : Nat) : Cpu :=
  match r with
  | .A => { c with af1 := v }
  | .F => { c with af0 := v }
  | .B => { c with bc1 := v }
  | .C => { c with bc0 := v }
  | .D => { c with de1 := v }
  | .E => { c with de0 := v }
  | .H => { c with hl1 := v }
  | .L => { c with hl0 := v }

/-- Model of `Cpu::wide_register`: `u16::from_le_bytes` of a byte pair. -/
def Cpu.wideRegister (c : Cpu) : WideRegister → Nat
  | .PC => c.pc
  | .SP => c.sp
  | .AF => c.af0 ||| (c.af1 <<< 8)
  | .BC => c.bc0 ||| (c.bc1 <<< 8)
  | .DE => c.de0 ||| (c.de1 <<< 8)
  | .HL => c.hl0 ||| (c.hl1 <<< 8)

/-- Model of `Cpu::set_wide_register`: `to_le_bytes`, with the low nibble of F
forced to zero when the target is AF (`value & 0xFFF0`). -/
def Cpu.setWideRegister (c : Cpu) (r : WideRegister) (v : Nat) : Cpu :=
  match r with
  | .PC => { c with pc := v }
  | .SP => { c with sp := v }
  | .AF => { c with af0 := (v &&& 0xFFF0) &&& 0xFF, af1 := ((v &&& 0xFFF0) >>> 8) &&& 0xFF }
  | .BC => { c with bc0 := v &&& 0xFF, bc1 := (v >>> 8) &&& 0xFF }
  | .DE => { c with de0 := v &&& 0xFF, de1 := (v >>> 8) &&& 0xFF }
  | .HL => { c with hl0 := v &&& 0xFF, hl1 := (v >>> 8) &&& 0xFF }

/-- Model of `Cpu::fetch`: read the byte at PC and advance PC (wrapping `u16`). -/
def Cpu.fetch (c : Cpu) (m : Mem) : Nat × Cpu :=
  (m c.pc, { c with pc := (c.pc + 1) % 65536 })

/-- Model of `Cpu::push_value`: decrement SP, store the high byte, decrement SP,
store the low byte (the `as u8` casts are the `% 256`). -/
def Cpu.pushValue (c : Cpu) (m : Mem) (value : Nat) : Cpu × Mem :=
  let sp1 := (c.sp + 65535) % 65536
  let m1 := m.set sp1 ((value >>> 8) % 256)
  let sp2 := (sp1 + 65535) % 65536
  let m2 := m1.set sp2 (value % 256)
  ({ c with sp := sp2 }, m2)

/-- Model of `Cpu::pop_value`: load the low byte, increment SP, load the high
byte, increment SP; `u16::from_le_bytes([lo, hi])`. -/
def Cpu.popValue (c : Cpu) (m : Mem) : Nat × Cpu :=
  let lo := m c.sp
  let sp1 := (c.sp + 1) % 65536
  let hi := m sp1
  let sp2 := (sp1 + 1) % 65536
  (lo ||| (hi <<< 8), { c with sp := sp2 })

/-- Model of `Cpu::push`: push a wide register, 16 cycles. -/
def Cpu.push (c : Cpu) (m : Mem) (reg : WideRegister) : Cpu × Mem × Nat :=
  let value := c.wideRegister reg
  let (c1, m1) := c.pushValue m value
  (c1, m1, 16)

/-- Model of `Cpu::pop`: pop into a wide register, 12 cycles. -/
def Cpu.pop (c : Cpu) (m : Mem) (reg : WideRegister) : Cpu × Mem × Nat :=
  let (value, c1) := c.popValue m
  (c1.setWideRegister reg value, m, 12)

/-- Model of `PUSH AF` followed by `POP AF` (opcodes 0xF5 then 0xF1), the round
trip of the AF-cleanliness law. -/
def Cpu.pushPopAF (c : Cpu) (m : Mem) : Cpu × Mem :=
  let (c1, m1, _) := c.push m .AF
  let (c2, m2, _) := c1.pop m1 .AF
  (c2, m2)

/-- Model of `Cpu::nop`: 4 cycles, no state change. -/
def Cpu.nop : Nat := 4

/-- Model of `Cpu::halt`: enter the halted state, 4 cycles. -/
def Cpu.halt (c : Cpu) : Cpu × Nat :=
  ({ c with halted := true }, 4)

/-- Model of `Cpu::add_value`: the shared body of ADD/ADC. `carrying_add` is the
wrapping sum with carry-out; flags are written in source order
(Z, N, H, C). -/
def Cpu.addValue (c : Cpu) (value : Nat) (carry : Bool) : Cpu :=
  let a := c.register .A
  let sum := a + value + carry.toNat
  let result := sum % 256
  let carryOut : Bool := 255 < sum
  let c1 := c.setRegister .A result
  let c2 := c1.setFlag .Zero (result == 0)
  let c3 := c2.setFlag .Negative false
  let c4 := c3.setFlag .HalfCarry (((a ^^^ value ^^^ result) &&& 0x10) != 0)
  c4.setFlag .Carry carryOut

/-- Model of `Cpu::add`: `ADD A,r`, 4 cycles. -/
def Cpu.add (c : Cpu) (reg : Register) : Cpu × Nat :=
  (c.addValue (c.register reg) false, 4)

/-- Model of `Cpu::rst`: push PC, jump to the vector, 16 cycles (the cycle count
of the inner `push` is discarded, as in the source). -/
def Cpu.rst (c : Cpu) (m : Mem) (addr : Nat) : Cpu × Mem × Nat :=
  let (c1, m1, _) := c.push m .PC
  ({ c1 with pc := addr }, m1, 16)

/-- The fetch/dispatch tail of `Cpu::tick`. Only the opcodes exercised
by the claims are modelled (0x00 NOP, 0x76 HALT); every other opcode is
left unmodelled and yields `none`. No theorem below depends on an
unmodelled opcode. -/
def Cpu.execute (c : Cpu) (m : Mem) : Option (Cpu × Mem × Nat) :=
  let (opcode, c1) := c.fetch m
  match opcode with
  | 0x00 => some (c1, m, Cpu.nop)
  | 0x76 =>
    let (c2, cycles) := c1.halt
    some (c2, m, cycles)
  | _ => none

/-- Model of `Cpu::tick` (src/emu/cpu.rs, `impl BusDevice for Cpu`): the halted
early-return, the interrupt-dispatch block gated on `self.irq &&
self.ime`, then fetch/dispatch. Port IF is 0xFF0F and port IE is 0xFFFF
on the flat bus. -/
def Cpu.tick (c : Cpu) (m : Mem) : Option (Cpu × Mem × Nat) :=
  if c.halted then
    some (c, m, 4)
  else if c.irq && c.ime then
    let iflags := m 0xFF0F
    let imasked := m 0xFFFF &&& iflags
    if imasked != 0 then
      let (c1, m1) :=
        if imasked &&& 0x01 != 0 then
          let (ca, ma, _) := c.rst m 0x0040
          (ca, ma.set 0xFF0F (iflags ^^^ 0x01))
        else if imasked &&& 0x02 != 0 then
          let (ca, ma, _) := c.rst m 0x0048
          (ca, ma.set 0xFF0F (iflags ^^^ 0x02))
        else if imasked &&& 0x04 != 0 then
          let (ca, ma, _) := c.rst m 0x0050
          (ca, ma.set 0xFF0F (iflags ^^^ 0x04))
        else if imasked &&& 0x08 != 0 then
          let (ca, ma, _) := c.rst m 0x0058
          (ca, ma.set 0xFF0F (iflags ^^^ 0x08))
        else if imasked &&& 0x10 != 0 then
          let (ca, ma, _) := c.rst m 0x0060
          (ca, ma.set 0xFF0F (iflags ^^^ 0x10))
        else
          (c, m)
      some ({ c1 with ime := false }, m1, 20)
    else
      c.execute m
  else
    c.execute m

/-- Model of `Mbc1` (src/emu/mbc/mbc1.rs): `rom` is the cartridge split into
16 KiB chunks (`rom b o` is byte `o` of chunk `b`), `romBanks` is
`rom.len()`, `sram` likewise in 8 KiB chunks with `sramBanks =
sram.len()`. -/
structure Mbc1 where
  rom : Nat → Nat → Nat
  sram : Nat → Nat → Nat
  romBanks : Nat
  sramBanks : Nat
  romBank : Nat
  sramBank : Nat
  bankMode : Nat

/-- Model of `Mbc1::read`. -/
def Mbc1.read (m : Mbc1) (addr : Nat) : Nat :=
  if addr ≤ 0x3FFF then m.rom 0 addr
  else if addr ≤ 0x7FFF then m.rom m.romBank (addr - 0x4000)
  else if 0xA000 ≤ addr ∧ addr ≤ 0xBFFF then m.sram m.sramBank (addr - 0xA000)
  else 0xFF

/-- Model of `Mbc1::write`: the bank-register decode. The 0x2000-0x3FFF arm is
verbatim from the source, including the `value & 0x15` mask and the
translation match on 0x00/0x20/0x40/0x60; `(len - 1) as u8` is the
`% 256`. Addresses outside every arm (e.g. below 0x2000) fall through
to the `_ => {}` no-op. -/
def Mbc1.write (m : Mbc1) (addr value : Nat) : Mbc1 :=
  if 0x2000 ≤ addr ∧ addr ≤ 0x3FFF then
    let lo := value &&& 0x15
    let lo :=
      match lo with
      | 0x00 => 0x01
      | 0x20 => 0x21
      | 0x40 => 0x41
      | 0x60 => 0x61
      | _ => lo
    let romBank := (m.romBank &&& 0xE0) ||| lo
    { m with romBank := romBank &&& ((m.romBanks - 1) % 256) }
  else if 0x4000 ≤ addr ∧ addr ≤ 0x5FFF then
    if m.bankMode = 0 then
      let hi := (value &&& 0x03) <<< 5
      let romBank := (m.romBank &&& 0x1F) ||| hi
      { m with romBank := romBank &&& ((m.romBanks - 1) % 256) }
    else
      let sramBank := value &&& 0x03
      { m with sramBank := sramBank &&& ((m.sramBanks - 1) % 256) }
  else if 0x6000 ≤ addr ∧ addr ≤ 0x7FFF then
    { m with bankMode := value &&& 0x01 }
  else if 0xA000 ≤ addr ∧ addr ≤ 0xBFFF then
    { m with sram := fun b o => if b = m.sramBank ∧ o = addr - 0xA000 then value else m.sram b o }
  else
    m

/-- Model of `u8::reverse_bits` (used for sprite X-flip). -/
def revBits8 (n : Nat) : Nat :=
  (List.range 8).foldl (fun acc i => if n.testBit i then acc ||| (0x80 >>> i) else acc) 0

/-- Model of `Ppu` (src/emu/ppu.rs). The two VRAM banks of each region are
separate fields (`chrData0` is `chr_data[0]`, the DMG plane, and so
on); `objs` is the 160-byte OAM; `zBuffer r c` is `z_buffer[r][c]`. -/
structure Ppu where
  zBuffer : Nat → Nat → Nat
  chrData0 : Nat → Nat
  chrData1 : Nat → Nat
  bgData1p0 : Nat → Nat
  bgData1p1 : Nat → Nat
  bgData2p0 : Nat → Nat
  bgData2p1 : Nat → Nat
  objs : Nat → Nat
  dot : Nat
  dmaCounter : Nat
  lcdc : Nat
  stat : Nat
  scy : Nat
  scx : Nat
  ly : Nat
  lyc : Nat
  dma : Nat
  bgp : Nat
  obp0 : Nat
  obp1 : Nat
  wy : Nat
  wx : Nat
  vbk : Nat
  hdma1 : Nat
  hdma2 : Nat
  hdma3 : Nat
  hdma4 : Nat
  hdma5 : Nat
  bcps : Nat
  bcpd : Nat
  ocps : Nat
  ocpd : Nat

/-- Model of `Ppu::new`: VRAM and OAM filled with 0xFF, registers and counters
zero. -/
def Ppu.new : Ppu where
  zBuffer := fun _ _ => 0
  chrData0 := fun _ => 0xFF
  chrData1 := fun _ => 0xFF
  bgData1p0 := fun _ => 0xFF
  bgData1p1 := fun _ => 0xFF
  bgData2p0 := fun _ => 0xFF
  bgData2p1 := fun _ => 0xFF
  objs := fun _ => 0xFF
  dot := 0
  dmaCounter := 0
  lcdc := 0
  stat := 0
  scy := 0
  scx := 0
  ly := 0
  lyc := 0
  dma := 0
  bgp := 0
  obp0 := 0
  obp1 := 0
  wy := 0
  wx := 0
  vbk := 0
  hdma1 := 0
  hdma2 := 0
  hdma3 := 0
  hdma4 := 0
  hdma5 := 0
  bcps := 0
  bcpd := 0
  ocps := 0
  ocpd := 0

/-- Model of `Ppu::bg_color`: 2-bit color through BGP, greyscale palette; color 0
has Z 0x7F, colors 1-3 have Z 0x80. The `attr` parameter is unused in
the source (CGB TODO). -/
def Ppu.bgColor (p : Ppu) (bits : Nat) (attr : Nat) : Nat × Nat :=
  let _ := attr
  let pair :=
    match bits with
    | 0 => ((p.bgp &&& 0x03) >>> 0, 0x7F)
    | 1 => ((p.bgp &&& 0x0C) >>> 2, 0x80)
    | 2 => ((p.bgp &&& 0x30) >>> 4, 0x80)
    | _ => ((p.bgp &&& 0xC0) >>> 6, 0x80)
  let color :=
    match pair.1 with
    | 0 => 0xFFFFFFFF
    | 1 => 0xAAAAAAFF
    | 2 => 0x555555FF
    | _ => 0x000000FF
  (color, pair.2)

/-- Model of `Ppu::obj_color`: color 0 is transparent `(0, 0)`; palette OBP0/OBP1
by attribute bit 4; Z is 0xFF, or 0x7F when attribute bit 7 (behind
background) is set. -/
def Ppu.objColor (p : Ppu) (bits : Nat) (attr : Nat) : Nat × Nat :=
  if bits = 0 then (0, 0)
  else
    let obp := if attr &&& 0x10 = 0 then p.obp0 else p.obp1
    let index :=
      match bits with
      | 1 => (obp &&& 0x0C) >>> 2
      | 2 => (obp &&& 0x30) >>> 4
      | _ => (obp &&& 0xC0) >>> 6
    let z := if attr &&& 0x80 = 0 then 0xFF else 0x7F
    match index with
    | 0 => (0xFFFFFFFF, z)
    | 1 => (0xAAAAAAFF, z)
    | 2 => (0x555555FF, z)
    | _ => (0x000000FF, z)

/-- Model of `Ppu::draw_line`: renders scanline LY into `line`. Returns the
updated PPU (its Z-buffer row LY) together with the new line. The three
passes run in source order: background (unconditional), then sprites
(LCDC bit 1), then window (LCDC bit 5, with the `ly < wy` early
return). The pixel/Z state is a pair of functions, updated pointwise
exactly where the source assigns `self.z_buffer[ly][dot]` and
`line[dot]`. -/
def Ppu.drawLine (p : Ppu) (line : Nat → Nat) : Ppu × (Nat → Nat) :=
  let zrow0 : Nat → Nat := fun _ => 0
  let bgPass : (Nat → Nat) × (Nat → Nat) :=
    let bgDataP0 := if p.lcdc &&& 0x08 = 0 then p.bgData1p0 else p.bgData2p0
    let bgDataP1 := if p.lcdc &&& 0x08 = 0 then p.bgData1p1 else p.bgData2p1
    let bgY := (p.ly + p.scy) % 256
    let chrLineOffset := 2 * (bgY % 8)
    (List.range 160).foldl
      (fun st dot =>
        let zrow := st.1
        let ln := st.2
        let bgX := (dot + p.scx) % 256
        let bgTileIdx := (bgX / 8) + ((bgY / 8) * 32)
        let chrIdx := bgDataP0 bgTileIdx
        let attr := bgDataP1 bgTileIdx
        let chrDataOffset :=
          if p.lcdc &&& 0x10 != 0 then chrIdx * 16
          else (0x1000 + (if chrIdx < 128 then (chrIdx : Int) else (chrIdx : Int) - 256) * 16).toNat
        let chrX := bgX % 8
        let lo := p.chrData0 (chrDataOffset + chrLineOffset)
        let hi := p.chrData0 (chrDataOffset + chrLineOffset + 1)
        let bitlo := if lo &&& (0x80 >>> chrX) != 0 then 1 else 0
        let bithi := if hi &&& (0x80 >>> chrX) != 0 then 1 else 0
        let bits := (bithi <<< 1) ||| bitlo
        let cz := p.bgColor bits attr
        if cz.2 ≥ zrow dot then
          (fun j => if j = dot then cz.2 else zrow j, fun j => if j = dot then cz.1 else ln j)
        else st)
      (zrow0, line)
  let spritePass : (Nat → Nat) × (Nat → Nat) :=
    if p.lcdc &&& 0x02 != 0 then
      let height := if p.lcdc &&& 0x04 != 0 then 16 else 8
      (List.range 40).foldl
        (fun st objIdx =>
          let y := p.objs (4 * objIdx)
          if (p.ly + 16 < y) ∨ (p.ly + 16 - height ≥ y) then st
          else
            let y1 := (y + 240) % 256
            let chrIdx := p.objs (4 * objIdx + 2)
            let attr := p.objs (4 * objIdx + 3)
            let objY := ((p.ly + 256 - y1) % 256) % height
            let chrLineOffset := if attr &&& 0x40 = 0 then 2 * objY else 2 * (height - objY - 1)
            let chrDataOffset := chrIdx * 16
            let lo0 := p.chrData0 (chrDataOffset + chrLineOffset)
            let hi0 := p.chrData0 (chrDataOffset + chrLineOffset + 1)
            let lo := if attr &&& 0x20 != 0 then revBits8 lo0 else lo0
            let hi := if attr &&& 0x20 != 0 then revBits8 hi0 else hi0
            let x := (p.objs (4 * objIdx + 1) + 248) % 256
            (List.range 8).foldl
              (fun st2 i =>
                let zrow := st2.1
                let ln := st2.2
                let dot := (i + x) % 256
                if dot ≥ 160 then st2
                else
                  let bitlo := if lo &&& (0x80 >>> i) != 0 then 1 else 0
                  let bithi := if hi &&& (0x80 >>> i) != 0 then 1 else 0
                  let bits := (bithi <<< 1) ||| bitlo
                  let cz := p.objColor bits attr
                  if cz.2 ≥ zrow dot then
                    (fun j => if j = dot then cz.2 else zrow j,
                     fun j => if j = dot then cz.1 else ln j)
                  else st2)
              st)
        bgPass
    else bgPass
  let windowPass : (Nat → Nat) × (Nat → Nat) :=
    if p.lcdc &&& 0x20 != 0 then
      if p.ly < p.wy then spritePass
      else
        let winDataP0 := if p.lcdc &&& 0x40 = 0 then p.bgData1p0 else p.bgData2p0
        let winDataP1 := if p.lcdc &&& 0x40 = 0 then p.bgData1p1 else p.bgData2p1
        let winY := p.ly - p.wy
        let chrLineOffset := 2 * (winY % 8)
        (List.range 160).foldl
          (fun st dot =>
            let zrow := st.1
            let ln := st.2
            let winXOpt : Option Nat :=
              if p.wx < 7 then some (dot + (7 - p.wx))
              else if dot < p.wx - 7 then none
              else some (dot - (p.wx - 7))
            match winXOpt with
            | none => st
            | some winX =>
              let winTileIdx := (winX / 8) + ((winY / 8) * 32)
              let chrIdx := winDataP0 winTileIdx
              let attr := winDataP1 winTileIdx
              let chrDataOffset :=
                if p.lcdc &&& 0x10 != 0 then chrIdx * 16
                else (0x1000 + (if chrIdx < 128 then (chrIdx : Int) else (chrIdx : Int) - 256) * 16).toNat
              let chrX := winX % 8
              let lo := p.chrData0 (chrDataOffset + chrLineOffset)
              let hi := p.chrData0 (chrDataOffset + chrLineOffset + 1)
              let bitlo := if lo &&& (0x80 >>> chrX) != 0 then 1 else 0
              let bithi := if hi &&& (0x80 >>> chrX) != 0 then 1 else 0
              let bits := (bithi <<< 1) ||| bitlo
              let cz := p.bgColor bits attr
              let z := cz.2 + 1
              if z ≥ zrow dot then
                (fun j => if j = dot then z else zrow j, fun j => if j = dot then cz.1 else ln j)
              else st)
          spritePass
    else spritePass
  ({ p with zBuffer := fun r c => if r = p.ly then windowPass.1 c else p.zBuffer r c },
   windowPass.2)

/-- Model of `Ppu::read` (`impl BusDevice for Ppu`): VRAM through the VBK-selected
bank, OAM, then the port registers; `none` models the `unreachable!()`
arm. -/
def Ppu.read (p : Ppu) (addr : Nat) : Option Nat :=
  if 0x8000 ≤ addr ∧ addr ≤ 0x97FF then
    some (if p.vbk = 0 then p.chrData0 (addr - 0x8000) else p.chrData1 (addr - 0x8000))
  else if 0x9800 ≤ addr ∧ addr ≤ 0x9BFF then
    some (if p.vbk = 0 then p.bgData1p0 (addr - 0x9800) else p.bgData1p1 (addr - 0x9800))
  else if 0x9C00 ≤ addr ∧ addr ≤ 0x9FFF then
    some (if p.vbk = 0 then p.bgData2p0 (addr - 0x9C00) else p.bgData2p1 (addr - 0x9C00))
  else if 0xFE00 ≤ addr ∧ addr ≤ 0xFE9F then
    some (p.objs (addr - 0xFE00))
  else if addr = 0xFF40 then some p.lcdc
  else if addr = 0xFF41 then some p.stat
  else if addr = 0xFF42 then some p.scy
  else if addr = 0xFF43 then some p.scx
  else if addr = 0xFF44 then some p.ly
  else if addr = 0xFF45 then some p.lyc
  else if addr = 0xFF46 then some p.dma
  else if addr = 0xFF47 then some 0xFF
  else if addr = 0xFF48 then some 0xFF
  else if addr = 0xFF49 then some 0xFF
  else if addr = 0xFF4A then some p.wy
  else if addr = 0xFF4B then some p.wx
  else if addr = 0xFF4F then some p.vbk
  else if addr = 0xFF51 then some 0xFF
  else if addr = 0xFF52 then some 0xFF
  else if addr = 0xFF53 then some 0xFF
  else if addr = 0xFF54 then some 0xFF
  else if addr = 0xFF55 then some 0xFF
  else if addr = 0xFF68 then some p.bcps
  else if addr = 0xFF69 then some p.bcpd
  else if addr = 0xFF6A then some p.ocps
  else if addr = 0xFF6B then some p.ocpd
  else none

/-- Model of `Ppu::write`: VRAM/OAM stores, the STAT arm (bit 2 of the incoming
value is cleared, then bits 2-6 of the value are combined with the kept
mode bits), the LY arm (ignored), and the DMA arm (`dma_counter :=
objs.len() = 160`); `none` models the `unreachable!()` arm. -/
def Ppu.write (p : Ppu) (addr value : Nat) : Option Ppu :=
  if 0x8000 ≤ addr ∧ addr ≤ 0x97FF then
    some (if p.vbk = 0
      then { p with chrData0 := fun j => if j = addr - 0x8000 then value else p.chrData0 j }
      else { p with chrData1 := fun j => if j = addr - 0x8000 then value else p.chrData1 j })
  else if 0x9800 ≤ addr ∧ addr ≤ 0x9BFF then
    some (if p.vbk = 0
      then { p with bgData1p0 := fun j => if j = addr - 0x9800 then value else p.bgData1p0 j }
      else { p with bgData1p1 := fun j => if j = addr - 0x9800 then value else p.bgData1p1 j })
  else if 0x9C00 ≤ addr ∧ addr ≤ 0x9FFF then
    some (if p.vbk = 0
      then { p with bgData2p0 := fun j => if j = addr - 0x9C00 then value else p.bgData2p0 j }
      else { p with bgData2p1 := fun j => if j = addr - 0x9C00 then value else p.bgData2p1 j })
  else if 0xFE00 ≤ addr ∧ addr ≤ 0xFE9F then
    some { p with objs := fun j => if j = addr - 0xFE00 then value else p.objs j }
  else if addr = 0xFF40 then some { p with lcdc := value }
  else if addr = 0xFF41 then
    let value := if value &&& 0x04 != 0 then value ^^^ 0x04 else value
    some { p with stat := (value &&& 0x7C) ||| (p.stat &&& 0x03) }
  else if addr = 0xFF42 then some { p with scy := value }
  else if addr = 0xFF43 then some { p with scx := value }
  else if addr = 0xFF44 then some p
  else if addr = 0xFF45 then some { p with lyc := value }
  else if addr = 0xFF46 then some { p with dma := value, dmaCounter := 160 }
  else if addr = 0xFF47 then some { p with bgp := value }
  else if addr = 0xFF48 then some { p with obp0 := value }
  else if addr = 0xFF49 then some { p with obp1 := value }
  else if addr = 0xFF4A then some { p with wy := value }
  else if addr = 0xFF4B then some { p with wx := value }
  else if addr = 0xFF4F then some { p with vbk := value &&& 0x01 }
  else if addr = 0xFF51 then some p
  else if addr = 0xFF52 then some p
  else if addr = 0xFF53 then some p
  else if addr = 0xFF54 then some p
  else if addr = 0xFF55 then some p
  else if addr = 0xFF68 then some p
  else if addr = 0xFF69 then some p
  else if addr = 0xFF6A then some p
  else if addr = 0xFF6B then some p
  else none

/-- Model of `PpuView` (src/emu/mod.rs): the narrow bus the PPU ticks against.
It owns the 160x144 framebuffer and the interrupt-flag register and
nothing else. -/
structure PpuView where
  lcd : Nat → Nat → Nat
  iflags : Nat

/-- Model of `PpuView`'s `Bus::read`: only port IF; any other address is the
`unreachable!()` arm (the `TODO: DMA access for PPU` gap), modelled as
`none`. -/
def PpuView.read (v : PpuView) (addr : Nat) : Option Nat :=
  if addr = 0xFF0F then some v.iflags else none

/-- Model of `PpuView`'s `Bus::write`: only port IF, otherwise `unreachable!()`. -/
def PpuView.write (v : PpuView) (addr value : Nat) : Option PpuView :=
  if addr = 0xFF0F then some { v with iflags := value } else none

/-- Model of `Ppu::tick` (`impl BusDevice for Ppu`) against its real bus
`PpuView`: DMA byte copy (one per tick, descending index), the LCD-off
hold, the LYC compare at dot 0, the mode 2/3/0 transitions before
VBlank, the VBlank entry at LY 144 dot 0, and the dot/LY advance with
the LY wrap at 155. Returns the `vblank` signal count; `none` is a
panic in the source. -/
def Ppu.tick (p : Ppu) (bus : PpuView) : Option (Ppu × PpuView × Nat) :=
  if p.dmaCounter > 0 then do
    let dc := p.dmaCounter - 1
    let addr := (p.dma <<< 8) + dc
    let value ← bus.read addr
    some ({ p with dmaCounter := dc, objs := fun j => if j = dc then value else p.objs j },
      bus, 0)
  else if p.lcdc &&& 0x80 = 0 then
    some ({ p with stat := p.stat &&& 0xFC, ly := 0, dot := 0 }, bus, 0)
  else do
    let (p, bus) ←
      if p.dot = 0 then
        if p.ly = p.lyc then do
          let p := { p with stat := p.stat ||| 0x04 }
          if p.stat &&& 0x40 != 0 then do
            let iflags ← bus.read 0xFF0F
            let bus ← bus.write 0xFF0F (iflags ||| 0x02)
            pure (p, bus)
          else pure (p, bus)
        else pure ({ p with stat := p.stat &&& 0xFC }, bus)
      else pure (p, bus)
    if p.ly < 144 then do
      let (p, bus) ←
        if p.dot = 0 then do
          let p := { p with stat := (p.stat &&& 0xFC) ||| 0x02 }
          if p.stat &&& 0x20 != 0 then do
            let iflags ← bus.read 0xFF0F
            let bus ← bus.write 0xFF0F (iflags ||| 0x02)
            pure (p, bus)
          else pure (p, bus)
        else if p.dot = 80 then do
          let p := { p with stat := (p.stat &&& 0xFC) ||| 0x03 }
          let pl := p.drawLine (bus.lcd p.ly)
          pure (pl.1, { bus with lcd := fun r c => if r = p.ly then pl.2 c else bus.lcd r c })
        else if p.dot = 370 then do
          let p := { p with stat := p.stat &&& 0xFC }
          if p.stat &&& 0x08 != 0 then do
            let iflags ← bus.read 0xFF0F
            let bus ← bus.write 0xFF0F (iflags ||| 0x02)
            pure (p, bus)
          else pure (p, bus)
        else pure (p, bus)
      let p :=
        if p.dot + 1 = 456 then { p with dot := 0, ly := p.ly + 1 }
        else { p with dot := p.dot + 1 }
      some (p, bus, 0)
    else do
      let (p, bus, vblank) ←
        if p.ly = 144 ∧ p.dot = 0 then do
          let p := { p with stat := (p.stat &&& 0xFC) ||| 0x01 }
          let i0 ← bus.read 0xFF0F
          let iflags := i0 ||| 0x01
          let iflags := if p.stat &&& 0x10 != 0 then iflags ||| 0x02 else iflags
          let bus ← bus.write 0xFF0F iflags
          pure (p, bus, 1)
        else pure (p, bus, 0)
      let p :=
        if p.dot + 1 = 456 then
          let ly := p.ly + 1
          { p with dot := 0, ly := if ly = 155 then 0 else ly }
        else { p with dot := p.dot + 1 }
      some (p, bus, vblank)

/-- Model of `CpuView` (src/emu/mod.rs): the CPU's full bus view, instantiated
with the `Mbc1` cartridge mapper. `wram b o` is `wram[b][o]`. -/
structure CpuView where
  biosData : Nat → Nat
  mbc : Mbc1
  ppu : Ppu
  wram : Nat → Nat → Nat
  hram : Nat → Nat
  iflags : Nat
  bios : Nat
  svbk : Nat
  p1 : Nat
  sc : Nat
  div : Nat
  tima : Nat
  tma : Nat
  tac : Nat
  ie : Nat

/-- Model of `CpuView`'s `Bus::read`: the fixed-priority address decode. The
boot-ROM overlay arm `0x0000..=0x00FF if *self.bios == 0` comes first;
`none` is the `todo!()` on a read of SB (0xFF01). -/
def CpuView.read (cv : CpuView) (addr : Nat) : Option Nat :=
  if addr ≤ 0x00FF ∧ cv.bios = 0 then some (cv.biosData addr)
  else if addr ≤ 0x7FFF then some (cv.mbc.read addr)
  else if addr ≤ 0x9FFF then cv.ppu.read addr
  else if addr ≤ 0xBFFF then some (cv.mbc.read addr)
  else if addr ≤ 0xCFFF then some (cv.wram 0 (addr - 0xC000))
  else if addr ≤ 0xDFFF then
    some (if cv.svbk < 2 then cv.wram 1 (addr - 0xD000) else cv.wram cv.svbk (addr - 0xD000))
  else if addr ≤ 0xEFFF then some (cv.wram 0 (addr - 0xE000))
  else if addr ≤ 0xFDFF then
    some (if cv.svbk < 2 then cv.wram 1 (addr - 0xF000) else cv.wram cv.svbk (addr - 0xF000))
  else if 0xFE00 ≤ addr ∧ addr ≤ 0xFE9F then cv.ppu.read addr
  else if addr ≤ 0xFEFF then some 0xFF
  else if addr = 0xFF00 then some cv.p1
  else if addr = 0xFF01 then none
  else if addr = 0xFF02 then some cv.sc
  else if addr = 0xFF03 then some 0xFF
  else if addr = 0xFF04 then some cv.div
  else if addr = 0xFF05 then some cv.tima
  else if addr = 0xFF06 then some cv.tma
  else if addr = 0xFF07 then some cv.tac
  else if addr = 0xFF0F then some cv.iflags
  else if 0xFF40 ≤ addr ∧ addr ≤ 0xFF4B then cv.ppu.read addr
  else if addr = 0xFF50 then some cv.bios
  else if addr = 0xFF4F ∨ (0xFF51 ≤ addr ∧ addr ≤ 0xFF55) then cv.ppu.read addr
  else if 0xFF68 ≤ addr ∧ addr ≤ 0xFF6B then cv.ppu.read addr
  else if addr = 0xFF70 then some cv.svbk
  else if 0xFF80 ≤ addr ∧ addr ≤ 0xFFFE then some (cv.hram (addr - 0xFF80))
  else if addr = 0xFFFF then some cv.ie
  else some 0xFF

/-- Model of `CpuView`'s `Bus::write`: cartridge and VRAM stores, WRAM and its
echo, the port registers with their masks (P1 `& 0x3F`, SC `& 0x03`,
TAC `& 0x07`, IF `& 0x1F`, SVBK `& 0x07`), DIV reset on write, and the
plain store to the BIOS-disable port 0xFF50. A write to SB (0xFF01)
only prints to stderr, leaving the state unchanged. -/
def CpuView.write (cv : CpuView) (addr value : Nat) : Option CpuView :=
  if addr ≤ 0x7FFF then some { cv with mbc := cv.mbc.write addr value }
  else if addr ≤ 0x9FFF then (cv.ppu.write addr value).map (fun p => { cv with ppu := p })
  else if addr ≤ 0xBFFF then some { cv with mbc := cv.mbc.write addr value }
  else if addr ≤ 0xCFFF then
    some { cv with wram := fun b o => if b = 0 ∧ o = addr - 0xC000 then value else cv.wram b o }
  else if addr ≤ 0xDFFF then
    let bank := if cv.svbk < 2 then 1 else cv.svbk
    some { cv with wram := fun b o => if b = bank ∧ o = addr - 0xD000 then value else cv.wram b o }
  else if addr ≤ 0xEFFF then
    some { cv with wram := fun b o => if b = 0 ∧ o = addr - 0xE000 then value else cv.wram b o }
  else if addr ≤ 0xFDFF then
    let bank := if cv.svbk < 2 then 1 else cv.svbk
    some { cv with wram := fun b o => if b = bank ∧ o = addr - 0xF000 then value else cv.wram b o }
  else if 0xFE00 ≤ addr ∧ addr ≤ 0xFE9F then
    (cv.ppu.write addr value).map (fun p => { cv with ppu := p })
  else if addr ≤ 0xFEFF then some cv
  else if addr = 0xFF00 then some { cv with p1 := value &&& 0x3F }
  else if addr = 0xFF01 then some cv
  else if addr = 0xFF02 then some { cv with sc := value &&& 0x03 }
  else if addr = 0xFF03 then some cv
  else if addr = 0xFF04 then some { cv with div := 0 }
  else if addr = 0xFF05 then some { cv with tima := value }
  else if addr = 0xFF06 then some { cv with tma := value }
  else if addr = 0xFF07 then some { cv with tac := value &&& 0x07 }
  else if addr = 0xFF0F then some { cv with iflags := value &&& 0x1F }
  else if 0xFF40 ≤ addr ∧ addr ≤ 0xFF4B then
    (cv.ppu.write addr value).map (fun p => { cv with ppu := p })
  else if addr = 0xFF50 then some { cv with bios := value }
  else if addr = 0xFF4F ∨ (0xFF51 ≤ addr ∧ addr ≤ 0xFF55) then
    (cv.ppu.write addr value).map (fun p => { cv with ppu := p })
  else if 0xFF68 ≤ addr ∧ addr ≤ 0xFF6B then
    (cv.ppu.write addr value).map (fun p => { cv with ppu := p })
  else if addr = 0xFF70 then some { cv with svbk := value &&& 0x07 }
  else if 0xFF80 ≤ addr ∧ addr ≤ 0xFFFE then
    some { cv with hram := fun o => if o = addr - 0xFF80 then value else cv.hram o }
  else if addr = 0xFFFF then some { cv with ie := value }
  else some cv

/-- A bus image with IF = IE = 0x1F and NOP (0x00) bytes everywhere
else. -/
def memIrq : Mem := fun a => if a = 0xFF0F then 0x1F else if a = 0xFFFF then 0x1F else 0

/-- A running CPU at PC 0x100 with IME enabled; `irq` has its value in
every reachable state of the program, `false` (nothing ever sets it). -/
def cpuNoIrq : Cpu := { Cpu.new with pc := 0x100, sp := 0xFFFE, ime := true }

/-- Accumulator fixture for the ADD flag witness. -/
def cpuA : Cpu := { Cpu.new with af1 := 0xAB }

/-- AF/SP fixture for the PUSH/POP witness. -/
def cpuAF : Cpu := { Cpu.new with af0 := 0x35, af1 := 0x12, sp := 0x100 }

/-- An MBC-1 with a 2 MiB cartridge (128 banks of 16 KiB). -/
def mbc2MiB : Mbc1 :=
  { rom := fun _ _ => 0, sram := fun _ _ => 0, romBanks := 128, sramBanks := 1,
    romBank := 1, sramBank := 0, bankMode := 0 }

/-- An MBC-1 with a 32 KiB cartridge whose bank-0 bytes are all 0x55. -/
def mbcBoot : Mbc1 :=
  { rom := fun _ _ => 0x55, sram := fun _ _ => 0, romBanks := 2, sramBanks := 1,
    romBank := 1, sramBank := 0, bankMode := 0 }

/-- A CPU bus view over `mbcBoot` with boot ROM enabled (`bios = 0`) and
every boot-ROM byte 0xAA. -/
def cvBoot : CpuView :=
  { biosData := fun _ => 0xAA, mbc := mbcBoot, ppu := Ppu.new, wram := fun _ _ => 0,
    hram := fun _ => 0, iflags := 0, bios := 0, svbk := 0, p1 := 0, sc := 0, div := 0,
    tima := 0, tma := 0, tac := 0, ie := 0 }

/-- An all-zero framebuffer view with IF = 0. -/
def viewZero : PpuView := ⟨fun _ _ => 0, 0⟩

/-- PPU with the LCD on, at the last dot of scanline 153. -/
def ppuLine153 : Ppu := { Ppu.new with lcdc := 0x91, ly := 153, dot := 455 }

/-- PPU with the LCD on, at the last dot of scanline 154. -/
def ppuLine154 : Ppu := { Ppu.new with lcdc := 0x91, ly := 154, dot := 455 }

/-- PPU with the LCD on, at dot 0 of scanline 144 (VBlank entry). -/
def ppuLine144 : Ppu := { Ppu.new with lcdc := 0x91, ly := 144, dot := 0 }

/-- OAM bytes holding eleven sprites (indices 0-10), each with Y = 16
(covering scanline 0), X bytes 8, 16, ..., 88 (screen columns 0, 8,
..., 80), tile 0 and attributes 0; all later OAM bytes are 0, so no
other entry covers the line. -/
def objsEleven : Nat → Nat := fun n =>
  if n < 44 then
    match n % 4 with
    | 0 => 16
    | 1 => 8 + 8 * (n / 4)
    | _ => 0
  else 0

/-- OAM bytes holding two sprites at the same position (Y = 16, X byte
8, screen column 0) and the same tile 0: entry 0 uses OBP0 (attributes
0), entry 1 uses OBP1 (attributes 0x10). -/
def objsTie : Nat → Nat := fun n =>
  if n = 0 then 16
  else if n = 1 then 8
  else if n = 4 then 16
  else if n = 5 then 8
  else if n = 7 then 0x10
  else 0

/-- PPU rendering scanline 0 with sprites enabled (LCDC bit 1),
8000-addressed tiles (bit 4), solid 0xFF tile data (all 2-bit colors are
3), BGP mapping color 3 to white, OBP0 mapping color 3 to black
(0xC0), and `objsEleven` in OAM. -/
def ppuEleven : Ppu :=
  { Ppu.new with
    lcdc := 0x12, bgp := 0, obp0 := 0xC0,
    chrData0 := fun _ => 0xFF,
    bgData1p0 := fun _ => 0, bgData1p1 := fun _ => 0,
    objs := objsEleven }

/-- Same PPU, with the two tying sprites of `objsTie` in OAM: sprite 0
draws black through OBP0 = 0xC0, sprite 1 draws white through
OBP1 = 0. -/
def ppuTie : Ppu := { ppuEleven with objs := objsTie }

/-- C1 (code bug): with IME set and IF = IE = 0x1F pending, a step does
not dispatch an interrupt. The dispatch block of `Cpu::tick` is gated
on `irq && ime`, and no statement in the program ever sets `irq`, so
from `cpuNoIrq` (the reachable `irq = false`) the CPU just fetches the
NOP at PC: PC advances to 0x101, IME stays set, IF keeps 0x1F, 4
cycles — where the claim demands IME cleared, IF bit 0 cleared, a jump
to 0x40 and 20 cycles. The second conjunct shows the same state with
the dead `irq` latch forced on would dispatch exactly as claimed. -/
theorem interrupt_never_dispatched :
    (Cpu.tick cpuNoIrq memIrq).map (fun r => (r.1.pc, r.1.ime, r.2.1 0xFF0F, r.2.2))
      = some (0x101, true, 0x1F, 4)
    ∧ (Cpu.tick { cpuNoIrq with irq := true } memIrq).map
        (fun r => (r.1.pc, r.1.ime, r.2.1 0xFF0F, r.2.1 0xFFFD, r.2.1 0xFFFC, r.2.2))
      = some (0x40, false, 0x1E, 0x01, 0x00, 20) := by
  exact ⟨rfl, rfl⟩

/-- C2 (code bug): a halted CPU is never released. With IF = IE = 0x1F
pending, `Cpu::tick` takes the `self.halted` early return (`TODO: exit
halt state`) and leaves `halted` true for 4 cycles, whether IME is set
(first conjunct) or clear (second) — where the claim says any nonzero
IE & IF returns the CPU to the running state. -/
theorem halt_never_released :
    (Cpu.tick { cpuNoIrq with halted := true } memIrq).map
        (fun r => (r.1.halted, r.1.pc, r.2.2)) = some (true, 0x100, 4)
    ∧ (Cpu.tick { cpuNoIrq with halted := true, ime := false } memIrq).map
        (fun r => (r.1.halted, r.1.pc, r.2.2)) = some (true, 0x100, 4) := by
  exact ⟨rfl, rfl⟩

/-- C3 (code bug): with the LCD on, the tick that ends scanline 153
advances LY to 154 instead of wrapping to 0 (the wrap happens one line
later, at 155), so a frame is 155 scanlines = 70680 cycles, not the
claimed 154 = 70224. The conjuncts: dot 455 of LY 153 steps to LY 154;
dot 455 of LY 154 wraps to LY 0; the VBlank signal still fires once,
at LY 144 dot 0 (raising IF bit 0). -/
theorem ly_wraps_at_155 :
    (Ppu.tick ppuLine153 viewZero).map (fun r => (r.1.ly, r.1.dot, r.2.2)) = some (154, 0, 0)
    ∧ (Ppu.tick ppuLine154 viewZero).map (fun r => (r.1.ly, r.1.dot, r.2.2)) = some (0, 0, 0)
    ∧ (Ppu.tick ppuLine144 viewZero).map (fun r => (r.1.ly, r.1.dot, r.2.1.iflags, r.2.2))
      = some (144, 1, 1, 1) := by
  exact ⟨rfl, rfl, rfl⟩

/-- C4 (code bug): a write of 0xC0 to the DMA port arms the 160-cycle
copy (first conjunct), but the very next PPU tick reads the source byte
through `PpuView`, whose `read` supports only port IF (`TODO: DMA
access for PPU`), so the copy hits the `unreachable!()` panic
(modelled `none`) instead of filling OAM. -/
theorem dma_copy_panics :
    (Ppu.write Ppu.new 0xFF46 0xC0).map (fun p => (p.dma, p.dmaCounter)) = some (0xC0, 160)
    ∧ (Ppu.write Ppu.new 0xFF46 0xC0).bind (fun p => Ppu.tick p viewZero) = none := by
  exact ⟨rfl, rfl⟩

/-- C5 (code bug): the ROM-bank write masks the value with 0x15
(0b10101), not 0x1F, so bits 1 and 3 of the value are dropped and the
0x20/0x40/0x60 translation arms are dead code. On a 128-bank (2 MiB)
cartridge, writing 0x20 to 0x2000 yields bank 1 (0x20 & 0x15 = 0,
forced to 1), not the claimed 0x21; writing 0x0A also yields bank 1,
not the claimed bank 0x0A. -/
theorem mbc1_low5_mask_bug :
    (Mbc1.write mbc2MiB 0x2000 0x20).romBank = 1
    ∧ (Mbc1.write mbc2MiB 0x2000 0x0A).romBank = 1
    ∧ (Mbc1.write mbc2MiB 0x2000 0x20).romBank ≠ 0x21
    ∧ (Mbc1.write mbc2MiB 0x2000 0x0A).romBank ≠ 0x0A := by
  refine ⟨rfl, rfl, by decide, by decide⟩

/-- C6 (code bug): the sprite pass iterates all 40 OAM entries with no
10-per-line limit, and overwrites on equal Z (`z >= z_buffer`), so the
last matching OAM entry wins ties (the source's own TODO says to select
the first 10 and sort by X). First conjunct: with the eleven sprites of
`ppuEleven` covering scanline 0, the eleventh (OAM index 10, column 80)
is still drawn — its black pixel lands at column 80, where the claimed
10-sprite limit would leave the white background. Second conjunct: with
the two tying sprites of `ppuTie` at the same X, the pixel at column 0
is sprite 1's white, where the claimed lower-OAM-index priority would
keep sprite 0's black. -/
theorem sprite_limit_and_priority_bug :
    ((Ppu.drawLine ppuEleven (fun _ => 0)).2 80 = 0x000000FF)
    ∧ ((Ppu.drawLine ppuTie (fun _ => 0)).2 0 = 0xFFFFFFFF) := by
  exact ⟨rfl, rfl⟩

/-- C7 (counterexample): writing 0x01 to the BIOS port makes reads of
0x0000 return the cartridge byte 0x55, but a later write of 0x00
restores the boot-ROM overlay: the read returns the boot byte 0xAA
again, so the disable is not permanent. -/
theorem bios_reenable_counterexample :
    ((CpuView.write cvBoot 0xFF50 0x01).bind (fun a => a.read 0x0000) = some 0x55)
    ∧ (((CpuView.write cvBoot 0xFF50 0x01).bind
          (fun a => CpuView.write a 0xFF50 0x00)).bind
        (fun a => a.read 0x0000) = some 0xAA) := by
  exact ⟨rfl, rfl⟩

/-- C7 (amended): the BIOS-disable port 0xFF50 is a plain stored
register, not a sticky latch: a write stores the value verbatim, and a
read of 0x0000-0x00FF returns the boot-ROM byte exactly while the
stored value is zero (and the MBC ROM byte otherwise) — so a nonzero
write disables the overlay only until a later write of zero. -/
theorem bios_port_plain_register (cv : CpuView) (v addr : Nat) (ha : addr ≤ 0xFF) :
    CpuView.write cv 0xFF50 v = some { cv with bios := v }
    ∧ CpuView.read cv addr
        = (if cv.bios = 0 then some (cv.biosData addr) else some (cv.mbc.read addr)) := by
  constructor
  · simp +decide [CpuView.write]
  · by_cases hb : cv.bios = 0
    · simp [CpuView.read, hb, ha]
    · have h7 : addr ≤ 0x7FFF := by omega
      simp [CpuView.read, hb, ha, h7]

/-- Witness for `bios_port_plain_register` at `cvBoot`, v = 0x01,
addr = 0. -/
theorem bios_port_plain_register_witness :
    (0 : Nat) ≤ 0xFF
    ∧ (CpuView.write cvBoot 0xFF50 0x01 = some { cvBoot with bios := 0x01 }
      ∧ CpuView.read cvBoot 0
          = (if cvBoot.bios = 0 then some (cvBoot.biosData 0) else some (cvBoot.mbc.read 0))) :=
  ⟨by decide, bios_port_plain_register cvBoot 0x01 0 (by decide)⟩

theorem land16_bne (x : Nat) : ((x &&& 16) != 0) = x.testBit 4 := by
  have h := Nat.and_two_pow x 4
  norm_num at h
  rw [h]
  cases hb : x.testBit 4 <;> simp [hb]

theorem land32_bne (x : Nat) : ((x &&& 32) != 0) = x.testBit 5 := by
  have h := Nat.and_two_pow x 5
  norm_num at h
  rw [h]
  cases hb : x.testBit 5 <;> simp [hb]

theorem land64_bne (x : Nat) : ((x &&& 64) != 0) = x.testBit 6 := by
  have h := Nat.and_two_pow x 6
  norm_num at h
  rw [h]
  cases hb : x.testBit 6 <;> simp [hb]

theorem land128_bne (x : Nat) : ((x &&& 128) != 0) = x.testBit 7 := by
  have h := Nat.and_two_pow x 7
  norm_num at h
  rw [h]
  cases hb : x.testBit 7 <;> simp [hb]

/-- The source's half-carry test `(a ^ b ^ result) & 0x10 != 0` agrees
with the textbook low-nibble overflow test. -/
theorem half_carry_bridge (a b : Nat) :
    (((a ^^^ b ^^^ (a + b) % 256) &&& 16) != 0) = decide (15 < (a &&& 15) + (b &&& 15)) := by
  have e1 : a &&& 15 = a % 16 := by
    have h := Nat.and_pow_two_sub_one_eq_mod a 4
    norm_num at h
    exact h
  have e2 : b &&& 15 = b % 16 := by
    have h := Nat.and_pow_two_sub_one_eq_mod b 4
    norm_num at h
    exact h
  rw [e1, e2, land16_bne, Nat.testBit_xor, Nat.testBit_xor]
  rw [Nat.testBit_to_div_mod, Nat.testBit_to_div_mod, Nat.testBit_to_div_mod]
  norm_num
  by_cases h1 : a / 16 % 2 = 1 <;> by_cases h2 : b / 16 % 2 = 1 <;>
    by_cases h3 : (a + b) % 256 / 16 % 2 = 1 <;>
      simp [h1, h2, h3] <;> omega

/-- The four flag bits written by `Cpu::add_value`, read back through
`Cpu::flag`, in terms of the raw sum `A + value + carry`. -/
theorem addValue_flags (c : Cpu) (value : Nat) (carry : Bool) :
    ((c.addValue value carry).flag .Carry
        = decide (255 < c.af1 + value + carry.toNat))
    ∧ ((c.addValue value carry).flag .HalfCarry
        = (((c.af1 ^^^ value ^^^ (c.af1 + value + carry.toNat) % 256) &&& 16) != 0))
    ∧ ((c.addValue value carry).flag .Zero
        = (((c.af1 + value + carry.toNat) % 256) == 0))
    ∧ ((c.addValue value carry).flag .Negative = false) := by
  cases hz : (((c.af1 + value + carry.toNat) % 256) == 0) <;>
    cases hh : (((c.af1 ^^^ value ^^^ (c.af1 + value + carry.toNat) % 256) &&& 16) != 0) <;>
      cases hc : decide (255 < c.af1 + value + carry.toNat) <;>
        simp +decide [Cpu.addValue, Cpu.setFlag, Cpu.flag, CpuFlag.mask, Cpu.register,
          Cpu.setRegister, hz, hh, hc, land16_bne, land32_bne, land64_bne, land128_bne,
          Nat.testBit_lor, Nat.testBit_land]

/-- C8 (confirmed): for 8-bit `A = a` and operand `b`, `ADD A,b`
(`Cpu::add_value` with no carry-in) sets Carry exactly when
`a + b > 0xFF`, Half-Carry exactly when `(a & 0xF) + (b & 0xF) > 0xF`,
Zero exactly when the 8-bit result is 0, and clears Negative. -/
theorem addA_flag_contract (c : Cpu) (b : Nat) (ha : c.af1 < 256) (hb : b < 256) :
    ((c.addValue b false).flag .Carry = decide (0xFF < c.af1 + b))
    ∧ ((c.addValue b false).flag .HalfCarry = decide (0xF < (c.af1 &&& 0xF) + (b &&& 0xF)))
    ∧ ((c.addValue b false).flag .Zero = (((c.af1 + b) % 256) == 0))
    ∧ ((c.addValue b false).flag .Negative = false) := by
  have hflags := addValue_flags c b false
  simp only [Bool.toNat_false, Nat.add_zero] at hflags
  obtain ⟨h1, h2, h3, h4⟩ := hflags
  exact ⟨h1, h2.trans (half_carry_bridge c.af1 b), h3, h4⟩

/-- Witness for `addA_flag_contract` at A = 0xAB, b = 0xCD. -/
theorem addA_flag_contract_witness :
    cpuA.af1 < 256 ∧ (0xCD : Nat) < 256
    ∧ (((cpuA.addValue 0xCD false).flag .Carry = decide (0xFF < cpuA.af1 + 0xCD))
      ∧ ((cpuA.addValue 0xCD false).flag .HalfCarry
          = decide (0xF < (cpuA.af1 &&& 0xF) + (0xCD &&& 0xF)))
      ∧ ((cpuA.addValue 0xCD false).flag .Zero = (((cpuA.af1 + 0xCD) % 256) == 0))
      ∧ ((cpuA.addValue 0xCD false).flag .Negative = false)) :=
  ⟨by decide, by decide, addA_flag_contract cpuA 0xCD (by decide) (by decide)⟩

/-- The STAT write's value munging (`value ^ 0x04` when bit 2 is set,
then `& 0x7C`) equals a plain `& 0x78`. -/
theorem statValue_mask : ∀ v < 256,
    ((if v &&& 4 = 0 then v else v ^^^ 4) &&& 0x7C) = v &&& 0x78 := by decide

theorem statCombine_bits : ∀ v < 256, ∀ t < 4,
    (((v &&& 0x78) ||| t) &&& 0x03 = t)
    ∧ (((v &&& 0x78) ||| t) &&& 0x04 = 0)
    ∧ ((((v &&& 0x78) ||| t) >>> 3) &&& 0x0F = (v >>> 3) &&& 0x0F) := by decide

/-- C10 (confirmed): a CPU write of `v` to STAT (0xFF41) stores
`(v & 0x78) | (stat & 0x03)`: the two mode bits are kept from the old
STAT, bit 2 (the LYC-coincidence flag) is always stored clear — in
particular it cannot be set by the write — and only bits 3-6 are taken
from `v`. -/
theorem stat_write_contract (p : Ppu) (v : Nat) (hs : p.stat < 256) (hv : v < 256) :
    Ppu.write p 0xFF41 v = some { p with stat := (v &&& 0x78) ||| (p.stat &&& 0x03) }
    ∧ ((v &&& 0x78) ||| (p.stat &&& 0x03)) &&& 0x03 = p.stat &&& 0x03
    ∧ ((v &&& 0x78) ||| (p.stat &&& 0x03)) &&& 0x04 = 0
    ∧ (((v &&& 0x78) ||| (p.stat &&& 0x03)) >>> 3) &&& 0x0F = (v >>> 3) &&& 0x0F := by
  have hM := statValue_mask v hv
  have ht : p.stat &&& 3 < 4 := Nat.lt_succ_of_le Nat.and_le_right
  obtain ⟨hA, hB, hC⟩ := statCombine_bits v hv (p.stat &&& 3) ht
  refine ⟨?_, hA, hB, hC⟩
  simp +decide [Ppu.write, hM]

/-- Witness for `stat_write_contract` at stat = 0xAB, v = 0xFF (bit 2
set, so the write tries to set the coincidence flag and fails). -/
theorem stat_write_contract_witness :
    ({ Ppu.new with stat := 0xAB } : Ppu).stat < 256 ∧ (0xFF : Nat) < 256
    ∧ (Ppu.write { Ppu.new with stat := 0xAB } 0xFF41 0xFF
          = some { { Ppu.new with stat := 0xAB } with
              stat := (0xFF &&& 0x78) ||| (({ Ppu.new with stat := 0xAB } : Ppu).stat &&& 0x03) }
      ∧ ((0xFF &&& 0x78) ||| (({ Ppu.new with stat := 0xAB } : Ppu).stat &&& 0x03)) &&& 0x03
          = ({ Ppu.new with stat := 0xAB } : Ppu).stat &&& 0x03
      ∧ ((0xFF &&& 0x78) ||| (({ Ppu.new with stat := 0xAB } : Ppu).stat &&& 0x03)) &&& 0x04 = 0
      ∧ (((0xFF &&& 0x78) ||| (({ Ppu.new with stat := 0xAB } : Ppu).stat &&& 0x03)) >>> 3) &&& 0x0F
          = (0xFF >>> 3) &&& 0x0F) :=
  ⟨by decide, by decide, stat_write_contract { Ppu.new with stat := 0xAB } 0xFF (by decide) (by decide)⟩

theorem byte_testBit_false (f i : Nat) (hf : f < 256) (hi : 8 ≤ i) : f.testBit i = false :=
  Nat.testBit_lt_two_pow
    (lt_of_lt_of_le hf (Nat.pow_le_pow_right (show 0 < 2 by norm_num) hi))

/-- The low byte of `f | (a << 8)` is `f` when `f` is a byte. -/
theorem lor_shift_mod (f a : Nat) (hf : f < 256) : (f ||| a <<< 8) % 256 = f := by
  apply Nat.eq_of_testBit_eq
  intro i
  rw [show (256 : Nat) = 2 ^ 8 from rfl, Nat.testBit_mod_two_pow, Nat.testBit_lor,
    Nat.testBit_shiftLeft]
  rcases lt_or_ge i 8 with h | h
  · simp [h, show ¬(i ≥ 8) by omega]
  · simp [show ¬(i < 8) by omega, byte_testBit_false f i hf h]

/-- The high byte of `f | (a << 8)` is `a` when `f` is a byte. -/
theorem lor_shift_shiftRight (f a : Nat) (hf : f < 256) : (f ||| a <<< 8) >>> 8 = a := by
  apply Nat.eq_of_testBit_eq
  intro i
  rw [Nat.testBit_shiftRight, Nat.testBit_lor, Nat.testBit_shiftLeft]
  have e : 8 + i - 8 = i := by omega
  simp [byte_testBit_false f (8 + i) hf (by omega), e, Nat.le_add_right]

/-- Splitting a 16-bit value into `to_le_bytes` and reassembling with
`from_le_bytes` is the identity. -/
theorem recompose16 (w : Nat) (hw : w < 65536) :
    (w &&& 0xFF) ||| (((w >>> 8) &&& 0xFF) <<< 8) = w := by
  have e : ∀ x : Nat, x &&& 0xFF = x % 2 ^ 8 := by
    intro x
    have h := Nat.and_pow_two_sub_one_eq_mod x 8
    norm_num at h ⊢
    exact h
  apply Nat.eq_of_testBit_eq
  intro i
  rw [e, e, Nat.testBit_lor, Nat.testBit_shiftLeft, Nat.testBit_mod_two_pow,
    Nat.testBit_mod_two_pow, Nat.testBit_shiftRight]
  rcases lt_or_ge i 8 with h | h
  · simp [h, show ¬(i ≥ 8) by omega]
  · rcases lt_or_ge i 16 with h16 | h16
    · have e2 : 8 + (i - 8) = i := by omega
      simp [show ¬(i < 8) by omega, h, e2, show i - 8 < 8 by omega]
    · have hb : w.testBit i = false :=
        Nat.testBit_lt_two_pow
          (lt_of_lt_of_le hw (Nat.pow_le_pow_right (show 0 < 2 by norm_num) h16))
      simp [show ¬(i < 8) by omega, show ¬(i - 8 < 8) by omega, h, hb]

/-- The two AF bytes and SP after one PUSH AF / POP AF round trip: the
two stack bytes written by `push_value` are read back unchanged by
`pop_value` (the stack addresses are distinct mod 2^16), and
`set_wide_register AF` masks the popped value with 0xFFF0. -/
theorem pushPopAF_core (c : Cpu) (m : Mem) (h0 : c.af0 < 256) (h1 : c.af1 < 256)
    (hsp : c.sp < 65536) :
    (c.pushPopAF m).1.af0 = ((c.af0 ||| c.af1 <<< 8) &&& 0xFFF0) &&& 0xFF
    ∧ (c.pushPopAF m).1.af1 = (((c.af0 ||| c.af1 <<< 8) &&& 0xFFF0) >>> 8) &&& 0xFF
    ∧ (c.pushPopAF m).1.sp = c.sp := by
  have hA : (c.sp + 65535 + 65535 + 1) % 65536 ≠ (c.sp + 65535 + 65535) % 65536 := by omega
  have hB : (c.sp + 65535 + 65535 + 1) % 65536 = (c.sp + 65535) % 65536 := by omega
  have hC : (c.sp + 65535 + 65535 + 1 + 1) % 65536 = c.sp := by omega
  have hD : (c.sp + 65535) % 65536 ≠ (c.sp + 65535 + 65535) % 65536 := by omega
  have hE : (c.sp + 65535 + 1) % 65536 = c.sp := by omega
  simp only [Cpu.pushPopAF, Cpu.push, Cpu.pop, Cpu.pushValue, Cpu.popValue,
    Cpu.wideRegister, Cpu.setWideRegister, Mem.set]
  simp [hA, hB, hC, hD, hE, lor_shift_mod c.af0 c.af1 h0, lor_shift_shiftRight c.af0 c.af1 h0,
    Nat.mod_eq_of_lt h1]

/-- C9 (confirmed): for a 16-bit AF value, PUSH AF then POP AF leaves
AF equal to the old value with the low nibble of F forced to zero
(`AF & 0xFFF0`), restores SP, and a second push/pop round trip changes
nothing (idempotence modulo 0xFFF0). -/
theorem pushPopAF_contract (c : Cpu) (m : Mem) (h0 : c.af0 < 256) (h1 : c.af1 < 256)
    (hsp : c.sp < 65536) :
    ((c.pushPopAF m).1.wideRegister .AF = c.wideRegister .AF &&& 0xFFF0)
    ∧ ((c.pushPopAF m).1.sp = c.sp)
    ∧ (((c.pushPopAF m).1.pushPopAF (c.pushPopAF m).2).1.wideRegister .AF
        = (c.pushPopAF m).1.wideRegister .AF) := by
  obtain ⟨ha0, ha1, hsp'⟩ := pushPopAF_core c m h0 h1 hsp
  have hx : c.af0 < 2 ^ 16 := by norm_num; omega
  have hy : c.af1 <<< 8 < 2 ^ 16 := by rw [Nat.shiftLeft_eq]; norm_num; omega
  have hvlt : (c.af0 ||| c.af1 <<< 8) < 65536 := by
    have h := Nat.or_lt_two_pow hx hy
    norm_num at h
    exact h
  have hwlt : ((c.af0 ||| c.af1 <<< 8) &&& 0xFFF0) < 65536 :=
    lt_of_le_of_lt Nat.and_le_left hvlt
  have hrec := recompose16 ((c.af0 ||| c.af1 <<< 8) &&& 0xFFF0) hwlt
  have hww : ((c.af0 ||| c.af1 <<< 8) &&& 0xFFF0) &&& 0xFFF0
      = (c.af0 ||| c.af1 <<< 8) &&& 0xFFF0 := by
    rw [Nat.land_assoc, show (0xFFF0 &&& 0xFFF0 : Nat) = 0xFFF0 from by decide]
  refine ⟨?_, hsp', ?_⟩
  · simp [Cpu.wideRegister, ha0, ha1, hrec]
  · have hb0 : (c.pushPopAF m).1.af0 < 256 := by
      rw [ha0]
      exact Nat.lt_succ_of_le Nat.and_le_right
    have hb1 : (c.pushPopAF m).1.af1 < 256 := by
      rw [ha1]
      exact Nat.lt_succ_of_le Nat.and_le_right
    have hbsp : (c.pushPopAF m).1.sp < 65536 := by rw [hsp']; exact hsp
    obtain ⟨ga0, ga1, _⟩ :=
      pushPopAF_core (c.pushPopAF m).1 (c.pushPopAF m).2 hb0 hb1 hbsp
    simp [Cpu.wideRegister, ga0, ga1, ha0, ha1, hrec, hww]

/-- Witness for `pushPopAF_contract` at AF = 0x1235, SP = 0x100, all-zero
memory. -/
theorem pushPopAF_contract_witness :
    cpuAF.af0 < 256 ∧ cpuAF.af1 < 256 ∧ cpuAF.sp < 65536
    ∧ (((cpuAF.pushPopAF (fun _ => 0)).1.wideRegister .AF
          = cpuAF.wideRegister .AF &&& 0xFFF0)
      ∧ ((cpuAF.pushPopAF (fun _ => 0)).1.sp = cpuAF.sp)
      ∧ (((cpuAF.pushPopAF (fun _ => 0)).1.pushPopAF
            (cpuAF.pushPopAF (fun _ => 0)).2).1.wideRegister .AF
          = (cpuAF.pushPopAF (fun _ => 0)).1.wideRegister .AF)) :=
  ⟨by decide, by decide, by decide,
    pushPopAF_contract cpuAF (fun _ => 0) (by decide) (by decide) (by decide)⟩
